import Mathlib

/-!
Shallow embedding of the nzm-agent plugin core (pane registry, IPC message
shapes, command dispatcher, and pipe glue) from:
  src/plugin/nzm-agent/src/state.rs
  src/plugin/nzm-agent/src/ipc.rs
  src/plugin/nzm-agent/src/commands.rs
  src/plugin/nzm-agent/src/plugin.rs

Modelling conventions:
* `u32` and `usize` become `Nat` (no wrapping arithmetic is performed on them
  anywhere in the translated code; `u32` range enters only through the serde
  decoder, which is modelled explicitly in `decodeU32`).
* `serde_json::Value` becomes the inductive `Json`.  JSON numbers are modelled
  as rationals (`Rat`), which captures integer values of any size as well as
  non-integer numbers; serde_json's internal split between `u64`/`i64`/`f64`
  representations is not modelled, so an integral float such as `5.0` is
  identified with `5`.
* A Rust `HashMap` is modelled by the observable behaviour its uses need:
  `State.pane_by_id : List (Nat × Nat)` with insert-by-prepending (so the most
  recent insert for a key wins under `List.lookup`, matching `HashMap::insert`
  overwrite semantics), and `PaneManifest.panes : List (Nat × List PaneInfo)`
  holding the map's entries in the order the map's iterator yields them.
  Rust's `HashMap` leaves iteration order unspecified, so the order is part of
  the modelled manifest value: theorems about iteration-dependent behaviour
  must hold for every order, and behaviour that holds only for particular
  orders (e.g. ascending keys) does not hold of the code.
-/

/-- JSON values (serde_json::Value).  Object fields are an association list in
serialization order; the code under test never constructs duplicate keys. -/
inductive Json where
  | null : Json
  | bool (b : Bool) : Json
  | num (q : Rat) : Json
  | str (s : String) : Json
  | arr (elems : List Json) : Json
  | obj (fields : List (String × Json)) : Json
  deriving Repr

/-- PaneInfo (zellij_tile), restricted to the fields the translated code
reads: `id`, `title`, `is_focused`, `is_floating` (copied into the DTO),
and `is_plugin` (the registry filter).  No other field is consulted by
state.rs or commands.rs. -/
structure PaneInfo where
  id : Nat
  title : String
  is_focused : Bool
  is_floating : Bool
  is_plugin : Bool
  deriving Repr, DecidableEq

/-- PaneManifest (zellij_tile): `panes: HashMap<usize, Vec<PaneInfo>>`.
The list holds the hash map's (tab index, panes) entries in the order the
map's iterator yields them, which Rust leaves unspecified. -/
structure PaneManifest where
  panes : List (Nat × List PaneInfo)
  deriving Repr, DecidableEq

/-- state.rs `State`: the pane registry.  `pane_by_id` models
`HashMap<u32, usize>` as an association list where inserts prepend, so
`List.lookup` (first match) returns the most recently inserted binding for a
key, exactly the observable behaviour of `HashMap::insert` overwriting. -/
structure State where
  panes : List PaneInfo
  pane_by_id : List (Nat × Nat)
  deriving Repr, DecidableEq

/-- `#[derive(Default)]` for State: both containers empty. -/
def State.mkDefault : State :=
  { panes := [], pane_by_id := [] }

/-- The body of the inner loop of state.rs `State::update_panes`: skip plugin
panes; otherwise record `pane.id ↦ self.panes.len()` and push the pane. -/
def insertPane (st : State) (pane : PaneInfo) : State :=
  if !pane.is_plugin then
    { panes := st.panes ++ [pane],
      pane_by_id := (pane.id, st.panes.length) :: st.pane_by_id }
  else st

/-- state.rs `State::update_panes`: clear both containers, then iterate the
manifest's entries (in the map's iteration order) and each tab's panes (in
delivery order), inserting every non-plugin pane.  The prior state `s` is
discarded entirely, mirroring the two `clear()` calls. -/
def State.update_panes (s : State) (manifest : PaneManifest) : State :=
  manifest.panes.foldl (fun st tabEntry => tabEntry.2.foldl insertPane st)
    { panes := [], pane_by_id := [] }

/-- state.rs `State::get_pane`: `self.pane_by_id.get(&id).map(|&idx| &self.panes[idx])`.
The Rust indexing `self.panes[idx]` panics when out of bounds; that is
modelled by the fallible `getElem?`, and the safety claim shows the `none`
branch of the index is unreachable. -/
def State.get_pane (s : State) (id : Nat) : Option PaneInfo :=
  (s.pane_by_id.lookup id).bind (fun idx => s.panes[idx]?)

/-- state.rs `State::get_pane_by_title`: first pane whose title equals. -/
def State.get_pane_by_title (s : State) (title : String) : Option PaneInfo :=
  s.panes.find? (fun p => p.title == title)

/-- state.rs `State::get_panes_by_prefix`: all panes whose title starts with
the given pattern, in sequence order. -/
def State.get_panes_by_prefix (s : State) (pre : String) : List PaneInfo :=
  s.panes.filter (fun p => p.title.startsWith pre)

/-- serde's `u32` deserialization from a JSON value: succeeds exactly on
integer numbers in `[0, 2^32)`; negative integers, non-integer numbers and
integers above `u32::MAX` produce a decode error (serde refuses to truncate
or wrap). -/
def decodeU32 (j : Json) : Except String Nat :=
  match j with
  | .num q =>
    if q.den = 1 ∧ 0 ≤ q.num ∧ q.num < 2 ^ 32 then .ok q.num.toNat
    else .error "invalid value: number out of u32 range"
  | _ => .error "invalid type: expected u32"

/-- serde's `String` deserialization from a JSON value. -/
def decodeString (j : Json) : Except String String :=
  match j with
  | .str s => .ok s
  | _ => .error "invalid type: expected string"

/-- serde's `bool` deserialization from a JSON value. -/
def decodeBool (j : Json) : Except String Bool :=
  match j with
  | .bool b => .ok b
  | _ => .error "invalid type: expected bool"

/-- ipc.rs `PaneIdParam`: `{ pane_id: u32 }`. -/
structure PaneIdParam where
  pane_id : Nat
  deriving Repr, DecidableEq

/-- ipc.rs `SendKeysParams`: `{ pane_id: u32, text: String, #[serde(default)] enter: bool }`. -/
structure SendKeysParams where
  pane_id : Nat
  text : String
  enter : Bool
  deriving Repr, DecidableEq

/-- `serde_json::from_value::<PaneIdParam>`: requires an object with a
`pane_id` field decoding as u32; unknown fields are ignored (serde default). -/
def decodePaneIdParam (j : Json) : Except String PaneIdParam :=
  match j with
  | .obj fields =>
    match fields.lookup "pane_id" with
    | none => .error "missing field pane_id"
    | some v =>
      match decodeU32 v with
      | .error e => .error e
      | .ok pid => .ok { pane_id := pid }
  | _ => .error "invalid type: expected struct PaneIdParam"

/-- `serde_json::from_value::<SendKeysParams>`: object with `pane_id: u32`,
`text: String`, and optional `enter: bool` defaulting to `false` when the
field is absent.  Unknown fields are ignored (serde default). -/
def decodeSendKeysParams (j : Json) : Except String SendKeysParams :=
  match j with
  | .obj fields =>
    match fields.lookup "pane_id" with
    | none => .error "missing field pane_id"
    | some v =>
      match decodeU32 v with
      | .error e => .error e
      | .ok pid =>
        match fields.lookup "text" with
        | none => .error "missing field text"
        | some tv =>
          match decodeString tv with
          | .error e => .error e
          | .ok text =>
            match fields.lookup "enter" with
            | none => .ok { pane_id := pid, text := text, enter := false }
            | some ev =>
              match decodeBool ev with
              | .error e => .error e
              | .ok b => .ok { pane_id := pid, text := text, enter := b }
  | _ => .error "invalid type: expected struct SendKeysParams"

/-- ipc.rs `Request`: `{ id: String, action: String, #[serde(default)] params: Value }`. -/
structure Request where
  id : String
  action : String
  params : Json
  deriving Repr

/-- ipc.rs `Response`: `{ id, success, data (skipped when None), error (skipped when None) }`. -/
structure Response where
  id : String
  success : Bool
  data : Option Json
  error : Option String
  deriving Repr

/-- serde `Deserialize` for `Request` from a JSON value: object with string
fields `id` and `action`; `params` takes any value and defaults to `null`
when absent (`#[serde(default)]` with `Value::default() = Null`). -/
def decodeRequest (j : Json) : Except String Request :=
  match j with
  | .obj fields =>
    match fields.lookup "id" with
    | none => .error "missing field id"
    | some iv =>
      match decodeString iv with
      | .error e => .error e
      | .ok id =>
        match fields.lookup "action" with
        | none => .error "missing field action"
        | some av =>
          match decodeString av with
          | .error e => .error e
          | .ok action =>
            .ok { id := id, action := action,
                  params := (fields.lookup "params").getD Json.null }
  | _ => .error "invalid type: expected struct Request"

/-- commands.rs `PaneDto` under `Serialize` (`json!` embeds it as an object
with the fields in declaration order). -/
def paneDtoJson (p : PaneInfo) : Json :=
  .obj [("id", .num p.id), ("title", .str p.title),
        ("is_focused", .bool p.is_focused), ("is_floating", .bool p.is_floating)]

/-- commands.rs `handle_list_panes`: always succeeds with
`data = {"panes": [...]}` listing the registry in sequence order. -/
def handle_list_panes (req : Request) (state : State) : Response :=
  { id := req.id, success := true,
    data := some (.obj [("panes", .arr (state.panes.map paneDtoJson))]),
    error := none }

/-- commands.rs `handle_get_pane_info`. -/
def handle_get_pane_info (req : Request) (state : State) : Response :=
  match decodePaneIdParam req.params with
  | .ok p =>
    match state.get_pane p.pane_id with
    | some pane =>
      { id := req.id, success := true,
        data := some (.obj [("pane", paneDtoJson pane)]), error := none }
    | none =>
      { id := req.id, success := false, data := none,
        error := some ("pane not found: " ++ toString p.pane_id) }
  | .error e =>
    { id := req.id, success := false, data := none,
      error := some ("invalid params: " ++ e) }

/-- commands.rs `handle_send_keys_validate`. -/
def handle_send_keys_validate (req : Request) (state : State) : Response :=
  match decodeSendKeysParams req.params with
  | .ok p =>
    if (state.get_pane p.pane_id).isNone then
      { id := req.id, success := false, data := none,
        error := some ("pane not found: " ++ toString p.pane_id) }
    else
      { id := req.id, success := true,
        data := some (.obj [("action", .str "send_keys"), ("pane_id", .num p.pane_id),
                            ("text", .str p.text), ("enter", .bool p.enter)]),
        error := none }
  | .error e =>
    { id := req.id, success := false, data := none,
      error := some ("invalid params: " ++ e) }

/-- commands.rs `handle_send_interrupt_validate`. -/
def handle_send_interrupt_validate (req : Request) (state : State) : Response :=
  match decodePaneIdParam req.params with
  | .ok p =>
    if (state.get_pane p.pane_id).isNone then
      { id := req.id, success := false, data := none,
        error := some ("pane not found: " ++ toString p.pane_id) }
    else
      { id := req.id, success := true,
        data := some (.obj [("action", .str "send_interrupt"),
                            ("pane_id", .num p.pane_id)]),
        error := none }
  | .error e =>
    { id := req.id, success := false, data := none,
      error := some ("invalid params: " ++ e) }

/-- commands.rs `dispatch_command`: match on the action string with an
unknown-action fallback. -/
def dispatch_command (req : Request) (state : State) : Response :=
  if req.action = "list_panes" then handle_list_panes req state
  else if req.action = "get_pane_info" then handle_get_pane_info req state
  else if req.action = "send_keys" then handle_send_keys_validate req state
  else if req.action = "send_interrupt" then handle_send_interrupt_validate req state
  else
    { id := req.id, success := false, data := none,
      error := some ("unknown action: " ++ req.action) }

/-- plugin.rs: the source of a zellij `PipeMessage` — CLI pipe (carrying the
cli pipe id), another plugin, or a keybinding. -/
inductive PipeSource where
  | cli (cliId : String) : PipeSource
  | plugin (pluginId : Nat) : PipeSource
  | keybind : PipeSource
  deriving Repr, DecidableEq

/-- plugin.rs: a `PipeMessage` restricted to the fields `NzmAgent::pipe`
reads.  The textual JSON parsing of the payload string is external
(serde_json's parser); the payload is therefore modelled as its parse
outcome: `none` when the message carries no payload, `some (.error e)` when
the payload text is not valid JSON, `some (.ok j)` when it parses to `j`. -/
structure PipeMessage where
  source : PipeSource
  payload : Option (Except String Json)
  deriving Repr

/-- `serde_json::from_str::<Request>` factored through the payload's parse
outcome: a textual parse failure propagates, a parsed value is decoded as a
`Request`. -/
def parseRequest (pr : Except String Json) : Except String Request :=
  match pr with
  | .ok j => decodeRequest j
  | .error e => .error e

/-- plugin.rs `NzmAgent::pipe`, restricted to its observable output: the
`(cli_pipe_id, response)` pair sent through `cli_pipe_output`, or `none` when
nothing is sent.  On a decoded request the response is the dispatcher's (with
`id` re-set to the request id, as the code does); on a failed decode an error
response with empty `id` is built; either response is sent only when the
message's source is the CLI pipe.  `Response` serialization
(`serde_json::to_string`) is total, so the `if let Ok(response_json)` guard
always passes.  The `write_chars_to_pane_id` side effects belong to the
external executor and have no influence on the sent response. -/
def pipe_sent (msg : PipeMessage) (st : State) : Option (String × Response) :=
  match msg.payload with
  | none => none
  | some pr =>
    match parseRequest pr with
    | .ok request =>
      let response := { dispatch_command request st with id := request.id }
      match msg.source with
      | .cli cliId => some (cliId, response)
      | _ => none
    | .error e =>
      let errorResponse : Response :=
        { id := "", success := false, data := none,
          error := some ("Failed to parse request: " ++ e) }
      match msg.source with
      | .cli cliId => some (cliId, errorResponse)
      | _ => none

/-- The non-plugin panes of a manifest, flattened in the manifest's iteration
order with within-tab delivery order preserved: the canonical contents of the
registry after `update_panes`. -/
def nonPluginPanes (tabs : List (Nat × List PaneInfo)) : List PaneInfo :=
  tabs.flatMap (fun tabEntry => tabEntry.2.filter (fun p => !p.is_plugin))

/-- Follows the spec's words (§3, §8): the non-plugin entries of the snapshot
"in ascending tab-index order and, within a tab, in delivery order".  Stated
with a stable sort of the manifest entries by tab index. -/
def specListPanes (m : PaneManifest) : List PaneInfo :=
  nonPluginPanes (m.panes.insertionSort (fun a b => a.1 ≤ b.1))

/-! ### Characterization of the registry built by `update_panes` -/

/-- The (id, position) pairs recorded while appending `l` starting at
position `n`, in insertion order. -/
def idIndexPairs (l : List PaneInfo) (n : Nat) : List (Nat × Nat) :=
  match l with
  | [] => []
  | p :: rest => (p.id, n) :: idIndexPairs rest (n + 1)

theorem idIndexPairs_append (l₁ l₂ : List PaneInfo) (n : Nat) :
    idIndexPairs (l₁ ++ l₂) n = idIndexPairs l₁ n ++ idIndexPairs l₂ (n + l₁.length) := by
  induction l₁ generalizing n with
  | nil => simp [idIndexPairs]
  | cons p rest ih =>
    simp [idIndexPairs, ih, Nat.add_assoc, Nat.add_comm 1 rest.length]

theorem mem_idIndexPairs (l : List PaneInfo) (n : Nat) :
    ∀ x ∈ idIndexPairs l n, (∃ p ∈ l, x.1 = p.id) ∧ n ≤ x.2 ∧ x.2 < n + l.length := by
  induction l generalizing n with
  | nil => simp [idIndexPairs]
  | cons p rest ih =>
    intro x hx
    rcases List.mem_cons.mp hx with rfl | hx
    · exact ⟨⟨p, List.mem_cons_self p rest, rfl⟩, Nat.le_refl n,
        by simp only [List.length_cons]; omega⟩
    · obtain ⟨⟨q, hq, hid⟩, hle, hlt⟩ := ih (n + 1) x hx
      exact ⟨⟨q, List.mem_cons_of_mem p hq, hid⟩, by omega,
        by simp only [List.length_cons]; omega⟩

theorem foldl_insertPane_eq (l : List PaneInfo) (st : State) :
    l.foldl insertPane st =
      { panes := st.panes ++ l.filter (fun p => !p.is_plugin),
        pane_by_id :=
          (idIndexPairs (l.filter (fun p => !p.is_plugin)) st.panes.length).reverse
            ++ st.pane_by_id } := by
  induction l generalizing st with
  | nil => simp [idIndexPairs]
  | cons p rest ih =>
    by_cases hp : p.is_plugin
    · simp [List.foldl_cons, insertPane, hp, ih]
    · simp only [List.foldl_cons, insertPane, hp, Bool.not_false, if_pos]
      rw [ih]
      simp [hp, idIndexPairs, Nat.add_comm]

theorem foldl_tabs_eq (tabs : List (Nat × List PaneInfo)) (st : State) :
    tabs.foldl (fun st tabEntry => tabEntry.2.foldl insertPane st) st =
      { panes := st.panes ++ nonPluginPanes tabs,
        pane_by_id :=
          (idIndexPairs (nonPluginPanes tabs) st.panes.length).reverse
            ++ st.pane_by_id } := by
  induction tabs generalizing st with
  | nil => simp [nonPluginPanes, idIndexPairs]
  | cons tabEntry rest ih =>
    simp only [List.foldl_cons]
    rw [foldl_insertPane_eq, ih]
    simp [nonPluginPanes, idIndexPairs_append, Nat.add_comm]

/-- The registry after `update_panes`: the sequence is the manifest's
non-plugin panes in iteration order, and the id map is the (id, position)
association list in reverse insertion order. -/
theorem update_panes_eq (s : State) (m : PaneManifest) :
    s.update_panes m =
      { panes := nonPluginPanes m.panes,
        pane_by_id := (idIndexPairs (nonPluginPanes m.panes) 0).reverse } := by
  show m.panes.foldl (fun st tabEntry => tabEntry.2.foldl insertPane st)
      { panes := [], pane_by_id := [] } = _
  rw [foldl_tabs_eq]
  simp

/-! ### Claim theorems -/

/-- C1, counterexample: `list()` after `replace_snapshot(S)` is NOT in general
ordered by ascending tab index.  `manifest.panes` is a Rust `HashMap`, whose
iteration order is unspecified; for a manifest whose iterator yields tab 1
before tab 0, the registry sequence is in iteration order, not ascending tab
order, so it differs from the spec-ordered listing (same panes, different
order). -/
theorem update_panes_not_tab_ascending :
    (State.update_panes State.mkDefault
        ⟨[(1, [⟨10, "a", false, false, false⟩]), (0, [⟨11, "b", false, false, false⟩])]⟩).panes
      ≠ specListPanes
        ⟨[(1, [⟨10, "a", false, false, false⟩]), (0, [⟨11, "b", false, false, false⟩])]⟩ := by
  decide

/-- C1 (amended): after `replace_snapshot(S)`, `list()` returns exactly the
non-plugin pane entries of S — equal as a multiset to the tab-ascending
listing, with every plugin-hosted entry excluded — in the order the manifest
map's iterator yields the tabs (within a tab, delivery order); the order
coincides with the spec's ascending-tab-index order exactly when the
iterator happens to yield tabs in ascending order, which Rust's `HashMap`
does not guarantee. -/
theorem update_panes_list_characterization (s : State) (m : PaneManifest) :
    (State.update_panes s m).panes = nonPluginPanes m.panes ∧
    List.Perm (State.update_panes s m).panes (specListPanes m) ∧
    (List.Sorted (fun a b => a.1 ≤ b.1) m.panes →
      (State.update_panes s m).panes = specListPanes m) := by
  have h : (State.update_panes s m).panes = nonPluginPanes m.panes := by
    rw [update_panes_eq]
  refine ⟨h, ?_, fun hs => ?_⟩
  · rw [h]
    exact (List.Perm.flatMap_right _ (List.perm_insertionSort _ m.panes)).symm
  · rw [h]
    show nonPluginPanes m.panes = nonPluginPanes (m.panes.insertionSort fun a b => a.1 ≤ b.1)
    rw [List.Sorted.insertionSort_eq hs]

/-- C1 witness: on a manifest whose iterator yields tabs in ascending order,
the registry sequence equals the spec-ordered listing. -/
theorem update_panes_list_characterization_witness :
    (State.update_panes State.mkDefault
        ⟨[(0, [⟨11, "b", false, false, false⟩]), (1, [⟨10, "a", false, false, false⟩])]⟩).panes
      = specListPanes
        ⟨[(0, [⟨11, "b", false, false, false⟩]), (1, [⟨10, "a", false, false, false⟩])]⟩ :=
  (update_panes_list_characterization State.mkDefault _).2.2 (by decide)

/-- C2: `replace_snapshot` is idempotent on replacement — applying the same
snapshot twice yields the same `list()`, `get_by_id`, `get_by_title` and
`get_by_prefix` results as applying it once (the rebuild discards all prior
state, so the second application starts from the same cleared registry). -/
theorem replace_snapshot_idempotent (s : State) (m : PaneManifest) :
    (State.update_panes (State.update_panes s m) m).panes = (State.update_panes s m).panes ∧
    (∀ id, State.get_pane (State.update_panes (State.update_panes s m) m) id
        = State.get_pane (State.update_panes s m) id) ∧
    (∀ title, State.get_pane_by_title (State.update_panes (State.update_panes s m) m) title
        = State.get_pane_by_title (State.update_panes s m) title) ∧
    (∀ pre, State.get_panes_by_prefix (State.update_panes (State.update_panes s m) m) pre
        = State.get_panes_by_prefix (State.update_panes s m) pre) :=
  ⟨rfl, fun _ => rfl, fun _ => rfl, fun _ => rfl⟩

/-- C3: when two or more non-plugin entries of the snapshot share an id `i`,
the id map resolves `i` to the position of the last such entry appended
(`p` at position `l₁.length`, with no later entry of `l₂` carrying `i`),
while the sequence still contains every one of the duplicated entries. -/
theorem duplicate_id_last_write_wins (s : State) (m : PaneManifest) (i : Nat)
    (l₁ : List PaneInfo) (p : PaneInfo) (l₂ : List PaneInfo)
    (hsplit : nonPluginPanes m.panes = l₁ ++ p :: l₂)
    (hp : p.id = i)
    (hl₂ : ∀ q ∈ l₂, q.id ≠ i)
    (_hdup : ∃ q ∈ l₁, q.id = i) :
    (State.update_panes s m).pane_by_id.lookup i = some l₁.length ∧
    (State.update_panes s m).panes = l₁ ++ p :: l₂ := by
  rw [update_panes_eq]
  refine ⟨?_, hsplit⟩
  show ((idIndexPairs (nonPluginPanes m.panes) 0).reverse.lookup i) = some l₁.length
  rw [hsplit, idIndexPairs_append]
  show ((idIndexPairs l₁ 0 ++ (p.id, 0 + l₁.length) :: idIndexPairs l₂ (0 + l₁.length + 1)).reverse.lookup i)
      = some l₁.length
  rw [List.reverse_append, List.reverse_cons, List.lookup_append, List.lookup_append]
  have h2 : (idIndexPairs l₂ (0 + l₁.length + 1)).reverse.lookup i = none := by
    rw [List.lookup_eq_none_iff]
    intro x hx
    rw [List.mem_reverse] at hx
    obtain ⟨⟨q, hq, hqid⟩, -, -⟩ := mem_idIndexPairs _ _ x hx
    simp only [hqid, bne_iff_ne]
    exact fun hc => hl₂ q hq hc.symm
  rw [h2, hp]
  simp

/-- C3 witness: a snapshot with panes of ids 5, 5, 7 maps id 5 to position 1
(the second pane with id 5) while listing all three panes. -/
theorem duplicate_id_last_write_wins_witness :
    (State.update_panes State.mkDefault
        ⟨[(0, [⟨5, "x", false, false, false⟩, ⟨5, "y", false, false, false⟩,
               ⟨7, "z", false, false, false⟩])]⟩).pane_by_id.lookup 5 = some 1 ∧
    (State.update_panes State.mkDefault
        ⟨[(0, [⟨5, "x", false, false, false⟩, ⟨5, "y", false, false, false⟩,
               ⟨7, "z", false, false, false⟩])]⟩).panes
      = [⟨5, "x", false, false, false⟩] ++ ⟨5, "y", false, false, false⟩
          :: [⟨7, "z", false, false, false⟩] :=
  duplicate_id_last_write_wins State.mkDefault _ 5 [⟨5, "x", false, false, false⟩]
    ⟨5, "y", false, false, false⟩ [⟨7, "z", false, false, false⟩]
    (by decide) rfl (by decide) (by decide)

/-- C4: every response produced by `dispatch_command` has exactly one of
`data` / `error` present — `data` present and `error` absent exactly when
`success` is true, `error` present and `data` absent exactly when `success`
is false. -/
theorem dispatch_exactly_one_of_data_error (req : Request) (st : State) :
    ((dispatch_command req st).data.isSome = (dispatch_command req st).success) ∧
    ((dispatch_command req st).error.isSome = !(dispatch_command req st).success) := by
  unfold dispatch_command handle_list_panes handle_get_pane_info handle_send_keys_validate
    handle_send_interrupt_validate
  repeat' split
  all_goals simp

/-- C5: the three response cases of `get_pane_info` — params decode failure
gives `success=false` with error `invalid params: <detail>`; a decoded but
unregistered pane id gives `success=false` with error `pane not found: <id>`;
a registered pane gives `success=true` with `data={pane: <DTO>}`. -/
theorem get_pane_info_response_cases (req : Request) (st : State)
    (ha : req.action = "get_pane_info") :
    (∀ e, decodePaneIdParam req.params = .error e →
      dispatch_command req st =
        { id := req.id, success := false, data := none,
          error := some ("invalid params: " ++ e) }) ∧
    (∀ p, decodePaneIdParam req.params = .ok p → State.get_pane st p.pane_id = none →
      dispatch_command req st =
        { id := req.id, success := false, data := none,
          error := some ("pane not found: " ++ toString p.pane_id) }) ∧
    (∀ p pane, decodePaneIdParam req.params = .ok p → State.get_pane st p.pane_id = some pane →
      dispatch_command req st =
        { id := req.id, success := true,
          data := some (.obj [("pane", paneDtoJson pane)]), error := none }) := by
  have hd : dispatch_command req st = handle_get_pane_info req st := by
    unfold dispatch_command; rw [ha]; rfl
  refine ⟨fun e he => ?_, fun p hp hg => ?_, fun p pane hp hg => ?_⟩
  · rw [hd]; simp [handle_get_pane_info, he]
  · rw [hd]; simp [handle_get_pane_info, hp, hg]
  · rw [hd]; simp [handle_get_pane_info, hp, hg]

/-- C5 witness: a `get_pane_info` request for a registered pane returns the
success response with the pane DTO. -/
theorem get_pane_info_response_cases_witness :
    dispatch_command
        { id := "1", action := "get_pane_info", params := .obj [("pane_id", .num 1)] }
        (State.update_panes State.mkDefault ⟨[(0, [⟨1, "t", true, false, false⟩])]⟩)
      = { id := "1", success := true,
          data := some (.obj [("pane", paneDtoJson ⟨1, "t", true, false, false⟩)]),
          error := none } :=
  (get_pane_info_response_cases _ _ rfl).2.2 ⟨1⟩ ⟨1, "t", true, false, false⟩ rfl rfl

/-- C6: a `send_keys` request whose params decode to `p` with `p.pane_id`
registered succeeds with `data` an exact echo
`{action:"send_keys", pane_id, text, enter}` of the decoded inputs, and the
decoder yields `enter = false` whenever the `enter` field is absent from the
params object. -/
theorem send_keys_success_echo (st : State) (req : Request) (p : SendKeysParams)
    (ha : req.action = "send_keys")
    (hdec : decodeSendKeysParams req.params = .ok p)
    (hpane : (State.get_pane st p.pane_id).isSome) :
    dispatch_command req st =
      { id := req.id, success := true,
        data := some (.obj [("action", .str "send_keys"), ("pane_id", .num p.pane_id),
                            ("text", .str p.text), ("enter", .bool p.enter)]),
        error := none } ∧
    (∀ fields, req.params = .obj fields → fields.lookup "enter" = none → p.enter = false) := by
  have hd : dispatch_command req st = handle_send_keys_validate req st := by
    unfold dispatch_command; rw [ha]; rfl
  constructor
  · obtain ⟨pane, hg⟩ := Option.isSome_iff_exists.mp hpane
    rw [hd]; simp [handle_send_keys_validate, hdec, hg]
  · intro fields hparams hlookup
    rw [hparams] at hdec
    simp only [decodeSendKeysParams, hlookup] at hdec
    repeat' split at hdec
    all_goals first
      | exact Except.noConfusion hdec
      | (injection hdec with h2; rw [← h2])

/-- C6 witness: `send_keys` with params `{pane_id:1, text:"hello"}` (no
`enter` field) against a registry containing pane 1 echoes
`{action:"send_keys", pane_id:1, text:"hello", enter:false}`. -/
theorem send_keys_success_echo_witness :
    dispatch_command
        { id := "2", action := "send_keys",
          params := .obj [("pane_id", .num 1), ("text", .str "hello")] }
        (State.update_panes State.mkDefault ⟨[(0, [⟨1, "t", true, false, false⟩])]⟩)
      = { id := "2", success := true,
          data := some (.obj [("action", .str "send_keys"), ("pane_id", .num 1),
                              ("text", .str "hello"), ("enter", .bool false)]),
          error := none } ∧
    ({ pane_id := 1, text := "hello", enter := false } : SendKeysParams).enter = false := by
  have h := send_keys_success_echo
      (State.update_panes State.mkDefault ⟨[(0, [⟨1, "t", true, false, false⟩])]⟩)
      { id := "2", action := "send_keys",
        params := .obj [("pane_id", .num 1), ("text", .str "hello")] }
      ⟨1, "hello", false⟩ rfl rfl rfl
  exact ⟨h.1, h.2 [("pane_id", .num 1), ("text", .str "hello")] rfl rfl⟩

/-- C7: an action outside the closed set
`{list_panes, get_pane_info, send_keys, send_interrupt}` yields
`success=false`, error `unknown action: <action>`, and absent data, for every
registry state. -/
theorem unknown_action_response (req : Request) (st : State)
    (h : req.action ∉ ["list_panes", "get_pane_info", "send_keys", "send_interrupt"]) :
    dispatch_command req st =
      { id := req.id, success := false, data := none,
        error := some ("unknown action: " ++ req.action) } := by
  simp only [List.mem_cons, List.not_mem_nil, or_false, not_or] at h
  obtain ⟨h1, h2, h3, h4⟩ := h
  unfold dispatch_command
  rw [if_neg h1, if_neg h2, if_neg h3, if_neg h4]

/-- C7 witness: the action "bogus" yields the unknown-action error response. -/
theorem unknown_action_response_witness :
    dispatch_command { id := "1", action := "bogus", params := .null } State.mkDefault
      = { id := "1", success := false, data := none,
          error := some ("unknown action: " ++ "bogus") } :=
  unknown_action_response { id := "1", action := "bogus", params := .null } State.mkDefault
    (by decide)

/-- C8, counterexample: a pipe payload that fails to decode as a Request does
NOT always result in a synthesized response being sent — when the pipe
message's source is not the CLI pipe (here: another plugin), `NzmAgent::pipe`
builds the error response but sends nothing (`cli_pipe_output` is reached
only for `PipeSource::Cli`), so the message is dropped silently. -/
theorem parse_failure_noncli_dropped :
    parseRequest (Except.error "boom") = Except.error "boom" ∧
    pipe_sent { source := PipeSource.plugin 0, payload := some (Except.error "boom") }
      State.mkDefault = none :=
  ⟨rfl, rfl⟩

/-- C8 (amended): for every inbound pipe payload carried by a CLI-sourced
pipe message that fails to decode as a Request (malformed envelope, not
merely invalid params), the glue synthesizes and sends a response with
`id=""`, `success=false`, and error `Failed to parse request: <detail>`
rather than dropping the message silently; for non-CLI pipe sources nothing
is sent. -/
theorem parse_failure_cli_error_response (cliId : String) (st : State)
    (pr : Except String Json) (e : String)
    (h : parseRequest pr = .error e) :
    pipe_sent { source := PipeSource.cli cliId, payload := some pr } st =
      some (cliId,
        { id := "", success := false, data := none,
          error := some ("Failed to parse request: " ++ e) }) := by
  simp [pipe_sent, h]

/-- C8 witness: a CLI-sourced payload whose text is not valid JSON gets the
synthesized empty-id error response on the CLI pipe. -/
theorem parse_failure_cli_error_response_witness :
    pipe_sent { source := PipeSource.cli "7", payload := some (Except.error "bad json") }
      State.mkDefault =
      some ("7",
        { id := "", success := false, data := none,
          error := some ("Failed to parse request: " ++ "bad json") }) :=
  parse_failure_cli_error_response "7" State.mkDefault (Except.error "bad json") "bad json" rfl

/-- C9: after any sequence of snapshot replacements starting from the default
registry, every position stored in the id map is a valid index into the pane
sequence, so `get_pane`'s indexing never goes out of bounds: whenever the
lookup yields an index, the index is below the sequence length and `get_pane`
yields a pane. -/
theorem pane_by_id_indices_in_bounds (ms : List PaneManifest) (i idx : Nat)
    (h : (ms.foldl State.update_panes State.mkDefault).pane_by_id.lookup i = some idx) :
    idx < (ms.foldl State.update_panes State.mkDefault).panes.length ∧
    (State.get_pane (ms.foldl State.update_panes State.mkDefault) i).isSome := by
  have hcases : ∀ (l : List PaneManifest) (s : State),
      l.foldl State.update_panes s = s ∨
      ∃ m, l.foldl State.update_panes s = State.update_panes State.mkDefault m := by
    intro l
    induction l with
    | nil => exact fun s => Or.inl rfl
    | cons m rest ih =>
      intro s
      rcases ih (State.update_panes s m) with he | ⟨m', he⟩
      · exact Or.inr ⟨m, he⟩
      · exact Or.inr ⟨m', he⟩
  have key : ∀ (s' : State) (m : PaneManifest),
      (State.update_panes s' m).pane_by_id.lookup i = some idx →
      idx < (State.update_panes s' m).panes.length := by
    intro s' m hl
    rw [update_panes_eq] at hl ⊢
    simp only at hl ⊢
    obtain ⟨L₁, L₂, hE, -⟩ := List.lookup_eq_some_iff.mp hl
    have hmem : (i, idx) ∈ (idIndexPairs (nonPluginPanes m.panes) 0).reverse := by
      rw [hE]; exact List.mem_append_right _ (List.mem_cons_self _ _)
    rw [List.mem_reverse] at hmem
    obtain ⟨-, -, hlt⟩ := mem_idIndexPairs _ _ _ hmem
    omega
  rcases hcases ms State.mkDefault with he | ⟨m, he⟩
  · rw [he] at h; simp [State.mkDefault] at h
  · rw [he] at h ⊢
    have hlt := key State.mkDefault m h
    refine ⟨hlt, ?_⟩
    rw [State.get_pane, h]
    simp [List.getElem?_eq_getElem hlt]

/-- C9 witness: after one snapshot containing pane 5, the stored index 0 is
in bounds and `get_pane 5` is some. -/
theorem pane_by_id_indices_in_bounds_witness :
    0 < (([⟨[(0, [⟨5, "x", false, false, false⟩])]⟩] : List PaneManifest).foldl
          State.update_panes State.mkDefault).panes.length ∧
    (State.get_pane (([⟨[(0, [⟨5, "x", false, false, false⟩])]⟩] : List PaneManifest).foldl
          State.update_panes State.mkDefault) 5).isSome :=
  pane_by_id_indices_in_bounds [⟨[(0, [⟨5, "x", false, false, false⟩])]⟩] 5 0 (by decide)

/-- C10: for `get_pane_info`, `send_keys` and `send_interrupt`, a params
`pane_id` that is a negative integer, a non-integer number, or an integer at
or above `2^32` fails decoding: the response is the `invalid params` error
(success false, data absent), never a truncated or wrapped registry lookup. -/
theorem invalid_pane_id_rejected (st : State) (req : Request)
    (fields : List (String × Json)) (q : Rat)
    (ha : req.action = "get_pane_info" ∨ req.action = "send_keys" ∨
          req.action = "send_interrupt")
    (hp : req.params = .obj fields)
    (hf : fields.lookup "pane_id" = some (.num q))
    (hq : q.num < 0 ∨ q.den ≠ 1 ∨ (2 ^ 32 : Int) ≤ q.num) :
    (dispatch_command req st).success = false ∧
    (dispatch_command req st).data = none ∧
    ∃ e, (dispatch_command req st).error = some ("invalid params: " ++ e) := by
  have hnot : ¬(q.den = 1 ∧ 0 ≤ q.num ∧ q.num < 2 ^ 32) := by
    rintro ⟨h1, h2, h3⟩
    rcases hq with hbad | hbad | hbad <;> omega
  have hu : decodeU32 (.num q) = .error "invalid value: number out of u32 range" := by
    show (if q.den = 1 ∧ 0 ≤ q.num ∧ q.num < 2 ^ 32 then (Except.ok q.num.toNat : Except String Nat)
          else .error "invalid value: number out of u32 range")
        = .error "invalid value: number out of u32 range"
    rw [if_neg hnot]
  have hpid : decodePaneIdParam req.params = .error "invalid value: number out of u32 range" := by
    simp [decodePaneIdParam, hp, hf, hu]
  have hsk : decodeSendKeysParams req.params = .error "invalid value: number out of u32 range" := by
    simp [decodeSendKeysParams, hp, hf, hu]
  rcases ha with ha | ha | ha
  · have hd : dispatch_command req st = handle_get_pane_info req st := by
      unfold dispatch_command; rw [ha]; rfl
    have hh : handle_get_pane_info req st =
        { id := req.id, success := false, data := none,
          error := some ("invalid params: " ++ "invalid value: number out of u32 range") } := by
      unfold handle_get_pane_info; rw [hpid]
    rw [hd, hh]
    exact ⟨rfl, rfl, "invalid value: number out of u32 range", rfl⟩
  · have hd : dispatch_command req st = handle_send_keys_validate req st := by
      unfold dispatch_command; rw [ha]; rfl
    have hh : handle_send_keys_validate req st =
        { id := req.id, success := false, data := none,
          error := some ("invalid params: " ++ "invalid value: number out of u32 range") } := by
      unfold handle_send_keys_validate; rw [hsk]
    rw [hd, hh]
    exact ⟨rfl, rfl, "invalid value: number out of u32 range", rfl⟩
  · have hd : dispatch_command req st = handle_send_interrupt_validate req st := by
      unfold dispatch_command; rw [ha]; rfl
    have hh : handle_send_interrupt_validate req st =
        { id := req.id, success := false, data := none,
          error := some ("invalid params: " ++ "invalid value: number out of u32 range") } := by
      unfold handle_send_interrupt_validate; rw [hpid]
    rw [hd, hh]
    exact ⟨rfl, rfl, "invalid value: number out of u32 range", rfl⟩

/-- C10 witness: `get_pane_info` with `pane_id = -1` is rejected with the
invalid-params error. -/
theorem invalid_pane_id_rejected_witness :
    ((-1 : Rat)).num < 0 ∧
    ((dispatch_command
        { id := "9", action := "get_pane_info",
          params := .obj [("pane_id", .num (-1))] } State.mkDefault).success = false ∧
      (dispatch_command
        { id := "9", action := "get_pane_info",
          params := .obj [("pane_id", .num (-1))] } State.mkDefault).data = none ∧
      ∃ e, (dispatch_command
        { id := "9", action := "get_pane_info",
          params := .obj [("pane_id", .num (-1))] } State.mkDefault).error
          = some ("invalid params: " ++ e)) :=
  ⟨by decide,
    invalid_pane_id_rejected State.mkDefault _ [("pane_id", .num (-1))] (-1) (Or.inl rfl)
      rfl rfl (Or.inl (by decide))⟩
